import Mathlib

/-!
Verification of the Place Resolution & Query Orchestration engine of the
multi-agent tourism system.

The Python sources are shallowly embedded:
* `api_clients.py` (`NominatimClient.get_place_details`,
  `NominatimClient.verify_place_exists`, `OverpassClient.get_tourist_attractions`)
* `agents.py` (`TourismAIAgent.determine_intent`, `TourismAIAgent.process_query`,
  `WeatherAgent.get_weather_info`, `PlacesAgent.get_places_info`)
* `offline_main.py` (`TourismSystemOffline.process_query` and the verification
  step of its main loop)

External HTTP providers (Nominatim, Open-Meteo, Overpass) and the LLM calls are
modelled as an explicit environment of pure functions; an exception or timeout
in a client is modelled as `none` / `[]`, exactly the value the Python client
returns after catching the exception.  Numeric provider payloads that are only
formatted into strings (temperatures) are carried as the strings they render
to; importance scores are embedded as rationals.
-/

/-! ### String primitives mirroring the Python operations used by the code -/

/-- Python `needle in hay` (substring containment, `"" in s` is `True`). -/
def containsSub (needle : List Char) : List Char → Bool
  | [] => needle.isEmpty
  | c :: t => needle.isPrefixOf (c :: t) || containsSub needle t

/-- Python `needle in hay` on strings. -/
def strIn (needle hay : String) : Bool := containsSub needle.data hay.data

/-- Python `str.lower()` (ASCII view). -/
def lowerStr (s : String) : String := ⟨s.data.map Char.toLower⟩

/-- Python `str.strip()`: drop whitespace from both ends. -/
def stripStr (s : String) : String :=
  ⟨((s.data.dropWhile Char.isWhitespace).reverse.dropWhile Char.isWhitespace).reverse⟩

/-- Helper for `pySplit`: accumulate the current word (reversed). -/
def wordsAux : List Char → List Char → List (List Char)
  | [], acc => if acc.isEmpty then [] else [acc.reverse]
  | c :: rest, acc =>
    if c.isWhitespace then
      if acc.isEmpty then wordsAux rest [] else acc.reverse :: wordsAux rest []
    else wordsAux rest (c :: acc)

/-- Python `str.split()` with no argument: whitespace-delimited tokens, no empties. -/
def pySplit (s : String) : List String := (wordsAux s.data []).map fun l => ⟨l⟩

/-- Python `s.split("\n", 1)[1]`: everything after the first newline
(total function; returns `""` when no newline is present, a case the code
guards with `"\n" in s`). -/
def afterFirstNL : List Char → List Char
  | [] => []
  | c :: rest => if c = '\n' then rest else afterFirstNL rest

/-- `s.split("\n", 1)[1]` on strings. -/
def afterFirstLine (s : String) : String := ⟨afterFirstNL s.data⟩

/-! ### Data model (api_clients.py) -/

/-- The fields of the raw best-match record returned by the Nominatim search
that the verification logic reads (`result` in `get_place_details`; the
address/`osm_type` fields are never consulted by the embedded logic and are
omitted). -/
structure GeoResult where
  name : String
  display_name : String
  ftype : String
  lat : ℚ
  lon : ℚ
  importance : ℚ
deriving DecidableEq, Repr

/-- `match_confidence` values: `"high"` / `"medium"` / `"low"`. -/
inductive Confidence
  | high
  | medium
  | low
deriving DecidableEq, Repr

/-- The `place_details` dictionary built by `NominatimClient.get_place_details`
(the fields the rest of the system reads). -/
structure PlaceDetails where
  name : String
  display_name : String
  ftype : String
  lat : ℚ
  lon : ℚ
  importance : ℚ
  match_confidence : Confidence
deriving DecidableEq, Repr

/-- The confidence computation of `NominatimClient.get_place_details`
(api_clients.py lines 97-109): compare the lower-cased resolved name with the
lower-cased, stripped query. -/
def matchConfidence (place_name : String) (found : String) : Confidence :=
  let found_name := lowerStr found
  let search_term := stripStr (lowerStr place_name)
  if found_name = search_term || strIn search_term found_name then .high
  else if (pySplit search_term).any (fun w => strIn w found_name) then .medium
  else .low

/-- `NominatimClient.get_place_details`: the geocoder's raw answer (provider
failure and "no results" both yield `none`, as the Python returns `None` in
both cases) decorated with the computed `match_confidence`. -/
def get_place_details (place_name : String) (geo : Option GeoResult) :
    Option PlaceDetails :=
  geo.map fun r =>
    { name := r.name
      display_name := r.display_name
      ftype := r.ftype
      lat := r.lat
      lon := r.lon
      importance := r.importance
      match_confidence := matchConfidence place_name r.name }

/-- The `(exists, place_details, message)` triple returned by
`NominatimClient.verify_place_exists`. -/
structure VerifyResult where
  ok : Bool
  details : Option PlaceDetails
  message : String
deriving DecidableEq, Repr

/-- The feature types filtered in strict mode (api_clients.py line 140). -/
def smallTypes : List String := ["hamlet", "village", "locality"]

/-- `NominatimClient.verify_place_exists` (api_clients.py lines 117-149).
`geo` is the geocoder's raw best match for `place_name` (`none` when the
provider finds nothing or the call fails). -/
def verify_place_exists (place_name : String) (strict : Bool)
    (geo : Option GeoResult) : VerifyResult :=
  match get_place_details place_name geo with
  | none => ⟨false, none, "I don't know this place exists."⟩
  | some d =>
    if strict ∧ d.importance < mkRat 3 10 ∧ lowerStr d.ftype ∈ smallTypes then
      ⟨false, some d, "I don't know this place exists."⟩
    else if strict ∧ d.match_confidence = .low then
      ⟨false, some d, "I don't know this place exists."⟩
    else
      ⟨true, some d, "Found " ++ d.display_name⟩

/-! ### Overpass client (`OverpassClient.get_tourist_attractions`) -/

/-- One OpenStreetMap element of the Overpass response: its tag dictionary. -/
structure OsmElement where
  tags : List (String × String)
deriving DecidableEq, Repr

/-- Python `tags.get(key)`. -/
def tagGet (tags : List (String × String)) (key : String) : Option String :=
  (tags.find? fun kv => kv.1 == key).map Prod.snd

/-- Python `a or b` on two optional strings (`None` and `""` are falsy). -/
def pyOr (a b : Option String) : Option String :=
  match a with
  | some s => if s = "" then b else some s
  | none => b

/-- `tags.get("name") or tags.get("name:en") or tags.get("name:en-GB")`. -/
def elemName (e : OsmElement) : Option String :=
  pyOr (tagGet e.tags "name") (pyOr (tagGet e.tags "name:en") (tagGet e.tags "name:en-GB"))

/-- One entry of the attraction list (`{"name": ..., "type": ...}`). -/
structure Attraction where
  name : String
  category : String
deriving DecidableEq, Repr

/-- The accumulation loop of `get_tourist_attractions` (api_clients.py lines
245-267): `places` and `seen_names` are the accumulators; the loop breaks as
soon as `len(places) >= limit` after an append. -/
def attractionsLoop (limit : Nat) :
    List OsmElement → List Attraction → List String → List Attraction
  | [], places, _ => places
  | e :: rest, places, seen =>
    if e.tags.isEmpty then attractionsLoop limit rest places seen
    else if (tagGet e.tags "tourism").isNone then attractionsLoop limit rest places seen
    else
      match elemName e with
      | none => attractionsLoop limit rest places seen
      | some nm =>
        if nm = "" then attractionsLoop limit rest places seen
        else if nm ∈ seen then attractionsLoop limit rest places seen
        else
          let places2 := places ++ [⟨nm, (tagGet e.tags "tourism").getD "attraction"⟩]
          if limit ≤ places2.length then places2
          else attractionsLoop limit rest places2 (nm :: seen)

/-- `OverpassClient.get_tourist_attractions` on an already-decoded element
list (the `data.get("elements", [])` of the JSON response); the final
`places[:limit]` is the `take`.  A failing call returns `[]` in the Python and
is modelled by the caller passing no elements. -/
def get_tourist_attractions (elements : List OsmElement) (limit : Nat) :
    List Attraction :=
  (attractionsLoop limit elements [] []).take limit

/-! ### Intent classification (`TourismAIAgent.determine_intent`) -/

/-- The `{"weather": ..., "places": ...}` intent dictionary. -/
structure Intent where
  weather : Bool
  places : Bool
deriving DecidableEq, Repr

/-- agents.py line 169. -/
def weather_keywords : List String :=
  ["temperature", "weather", "rain", "temperature there", "hot", "cold", "forecast"]

/-- agents.py line 170. -/
def places_keywords : List String :=
  ["places", "visit", "attractions", "tourist", "see", "go", "plan my trip"]

/-- `TourismAIAgent.determine_intent` (agents.py lines 157-182). -/
def determine_intent (user_input : String) : Intent :=
  let user_lower := lowerStr user_input
  let needs_weather := weather_keywords.any fun k => strIn k user_lower
  let needs_places := places_keywords.any fun k => strIn k user_lower
  if !needs_weather && !needs_places then ⟨needs_weather, true⟩
  else ⟨needs_weather, needs_places⟩

/-! ### Providers, events, and the two orchestrators -/

/-- Coordinates `(lat, lon)`. -/
abbrev Coords := ℚ × ℚ

/-- Weather payload as consumed by the rendering code: the temperature is the
string the number renders to, the precipitation probability an integer
percentage, the unit a string (`"°C"`). -/
structure WeatherData where
  temperature : String
  unit : String
  precipitation_probability : Nat
deriving DecidableEq, Repr

/-- The external collaborators of one query, as pure functions: each field is
the (deterministic, request-scoped) answer the corresponding client call
returns; `none` / `[]` is what the Python clients return when the upstream
call fails or finds nothing. -/
structure Env where
  /-- LLM place-name extraction (`extract_place_name`); `none` covers both
  "NONE" answers and extraction failure. -/
  extract : String → Option String
  /-- LLM phrasing of the "place doesn't exist" answer; `none` models the
  exception path that falls back to the hard-coded sentence. -/
  aiReject : String → Option String
  /-- `NominatimClient.get_place_details` raw best match. -/
  geocode : String → Option GeoResult
  /-- `NominatimClient.get_coordinates`. -/
  coordsOf : String → Option Coords
  /-- `OpenMeteoClient.get_weather`. -/
  weather : Coords → Option WeatherData
  /-- `OverpassClient.get_tourist_attractions`, already reduced to its
  returned list (empty on failure). -/
  attractions : Coords → Nat → List Attraction

/-- Observable provider-call events of one query, in program order. -/
inductive Event
  | geocode
  | verified
  | rejected
  | weatherCall
  | placesCall
deriving DecidableEq, Repr

/-- The weather sentence template (agents.py line 62 / offline_main.py line 32). -/
def weatherSentence (place_name : String) (w : WeatherData) : String :=
  "In " ++ place_name ++ " it's currently " ++ w.temperature ++ w.unit ++
    " with a chance of " ++ toString w.precipitation_probability ++ "% to rain."

/-- The lead-in line of the places rendering (agents.py line 113). -/
def placesHeader (place_name : String) : String :=
  "In " ++ place_name ++ " these are the places you can go, - - - - -"

/-- `WeatherAgent.get_weather_info` / `TourismSystemOffline.get_weather_info`
(identical code), instrumented with the provider calls it performs: the
Nominatim coordinate lookup, then (only if coordinates were found) the
Open-Meteo call. -/
def get_weather_info (env : Env) (place_name : String) :
    Option String × List Event :=
  match env.coordsOf place_name with
  | none => (none, [Event.geocode])
  | some c =>
    match env.weather c with
    | none => (none, [Event.geocode, Event.weatherCall])
    | some w => (some (weatherSentence place_name w), [Event.geocode, Event.weatherCall])

/-- `PlacesAgent.get_places_info` / `TourismSystemOffline.get_places_info`
(identical code), instrumented like `get_weather_info`. -/
def get_places_info (env : Env) (place_name : String) (limit : Nat) :
    Option String × List Event :=
  match env.coordsOf place_name with
  | none => (none, [Event.geocode])
  | some c =>
    let attrs := env.attractions c limit
    if attrs.isEmpty then
      (some (placesHeader place_name ++ "\n(No tourist attractions found in the database)"),
       [Event.geocode, Event.placesCall])
    else
      (some (placesHeader place_name ++ "\n" ++
          String.intercalate "\n" (attrs.map Attraction.name)),
       [Event.geocode, Event.placesCall])

/-- The response-combination step of `TourismAIAgent.process_query`
(agents.py lines 246-266). -/
def combineResponses (place_name : String)
    (weather_info places_info : Option String) : String :=
  let parts1 : List String :=
    match weather_info with
    | some w => [w]
    | none => []
  let parts2 : List String :=
    match places_info with
    | some p =>
      match weather_info with
      | some _ =>
        if strIn "\n" p then
          ["And these are the places you can go: - - - - -\n" ++ afterFirstLine p]
        else ["And " ++ p]
      | none => [p]
    | none => []
  let parts := parts1 ++ parts2
  if parts.isEmpty then
    "I found " ++ place_name ++ ", but couldn't retrieve information. Please try again."
  else String.intercalate " " parts

/-- `TourismAIAgent.process_query` (agents.py lines 184-266), the free-text
entry point, instrumented with its provider events.  Facet-agent exceptions
are already absorbed into the `none` results of the provider functions, which
is also what the `try/except` blocks produce. -/
def process_query (env : Env) (user_input : String) : String × List Event :=
  match env.extract user_input with
  | none => ("I couldn't identify a place name in your message. Please specify a location.", [])
  | some place_name =>
    let v := verify_place_exists place_name true (env.geocode place_name)
    if v.ok then
      let intent := determine_intent user_input
      let w := if intent.weather then get_weather_info env place_name else (none, [])
      let p := if intent.places then get_places_info env place_name 5 else (none, [])
      (combineResponses place_name w.1 p.1,
       Event.geocode :: Event.verified :: (w.2 ++ p.2))
    else
      ((env.aiReject place_name).getD
        "I don't know this place exists. Could you please check the spelling or provide more details about the location?",
       [Event.geocode, Event.rejected])

/-- `TourismSystemOffline.process_query` (offline_main.py lines 49-78), the
structured entry point's orchestrator, instrumented with provider events. -/
def process_query_offline (env : Env) (place_name : String)
    (get_weather get_places : Bool) : String × List Event :=
  let wr : List String × List Event :=
    if get_weather then
      match get_weather_info env place_name with
      | (some s, ev) => ([s], ev)
      | (none, ev) => (["Could not retrieve weather information for " ++ place_name ++ "."], ev)
    else ([], [])
  let pr : List String × List Event :=
    if get_places then
      match get_places_info env place_name 5 with
      | (some s, ev) =>
        (if get_weather && !wr.1.isEmpty then
           if strIn "\n" s then
             ["And these are the places you can go: - - - - -\n" ++ afterFirstLine s]
           else ["And " ++ s]
         else [s], ev)
      | (none, ev) => (["Could not retrieve tourist attractions for " ++ place_name ++ "."], ev)
    else ([], [])
  let parts := wr.1 ++ pr.1
  (if parts.isEmpty then
     "Could not retrieve information for " ++ place_name ++ ". Please try again."
   else String.intercalate " " parts,
   wr.2 ++ pr.2)

/-- One iteration of the offline main loop for a place query (offline_main.py
lines 126-153): verify strictly first; only on success run the orchestrator.
On rejection nothing is orchestrated and the loop prints the rejection
notice (returned here as the response). -/
def offlineSession (env : Env) (place_name : String)
    (get_weather get_places : Bool) : String × List Event :=
  let v := verify_place_exists place_name true (env.geocode place_name)
  if v.ok then
    let r := process_query_offline env place_name get_weather get_places
    (r.1, Event.geocode :: Event.verified :: r.2)
  else
    ("I don't know this place exists.", [Event.geocode, Event.rejected])

/-! ### Concrete scenario data -/

/-- Scenario A geocoder record: Bangalore, importance 0.9, type "city". -/
def bangaloreGeo : GeoResult :=
  { name := "Bangalore", display_name := "Bangalore", ftype := "city",
    lat := mkRat 1297 100, lon := mkRat 7759 100, importance := mkRat 9 10 }

/-- Scenario B geocoder record: Smallville, importance 0.1, type "hamlet". -/
def smallvilleGeo : GeoResult :=
  { name := "Smallville", display_name := "Smallville", ftype := "hamlet",
    lat := 0, lon := 0, importance := mkRat 1 10 }

/-- Scenario C environment: all providers succeed for Bangalore; the weather
is 24°C with 10% precipitation probability, the attractions are Lalbagh and
Cubbon Park. -/
def bangaloreEnv : Env :=
  { extract := fun _ => some "Bangalore"
    aiReject := fun _ => none
    geocode := fun _ => some bangaloreGeo
    coordsOf := fun _ => some (mkRat 1297 100, mkRat 7759 100)
    weather := fun _ => some ⟨"24", "°C", 10⟩
    attractions := fun _ _ => [⟨"Lalbagh", "attraction"⟩, ⟨"Cubbon Park", "park"⟩] }

/-- Scenario E environment: the place verifies, but the coordinate lookup
inside both facet helpers fails, so every facet provider call fails. -/
def failEnv : Env :=
  { bangaloreEnv with coordsOf := fun _ => none }

example : (process_query_offline bangaloreEnv "Bangalore" true true).1 =
    "In Bangalore it's currently 24°C with a chance of 10% to rain. And these are the places you can go: - - - - -\nLalbagh\nCubbon Park" := by
  decide

example : (process_query_offline failEnv "Bangalore" true false).1 =
    "Could not retrieve weather information for Bangalore." := by decide

example : (process_query_offline failEnv "Bangalore" false true).1 =
    "Could not retrieve tourist attractions for Bangalore." := by decide

example : (process_query_offline failEnv "Bangalore" true true).1 =
    "Could not retrieve weather information for Bangalore. Could not retrieve tourist attractions for Bangalore." := by
  decide

example : verify_place_exists "Smallville" true (some smallvilleGeo) =
    ⟨false, get_place_details "Smallville" (some smallvilleGeo), "I don't know this place exists."⟩ := by
  decide

example : (process_query bangaloreEnv "weather in Bangalore").2 =
    [Event.geocode, Event.verified, Event.geocode, Event.weatherCall] := by decide

example : determine_intent "weather in Bangalore" = ⟨true, false⟩ := by decide

example : determine_intent "hello there" = ⟨false, true⟩ := by decide

/-! ### Helper lemmas -/

/-- Normal form of strict/non-strict verification on a geocoder hit. -/
theorem verify_some_eq (place_name : String) (strict : Bool) (r : GeoResult) :
    verify_place_exists place_name strict (some r) =
      if strict = true ∧ r.importance < mkRat 3 10 ∧ lowerStr r.ftype ∈ smallTypes then
        ⟨false, get_place_details place_name (some r), "I don't know this place exists."⟩
      else if strict = true ∧ matchConfidence place_name r.name = Confidence.low then
        ⟨false, get_place_details place_name (some r), "I don't know this place exists."⟩
      else
        ⟨true, get_place_details place_name (some r), "Found " ++ r.display_name⟩ := rfl

/-! ### Claims -/

/-- C7: for every input name and both values of strict, when the geocode
provider returns no match (which is also what the client returns when the
geocode call itself fails), `verify_place_exists` returns the NotFound
outcome: `exists = False` with no candidate record. -/
theorem C7_no_match_notFound (place_name : String) (strict : Bool) :
    verify_place_exists place_name strict none =
      ⟨false, none, "I don't know this place exists."⟩ := rfl

/-- C2: on a geocoder hit, the rejection outcome (`exists = False` still
carrying the candidate record — the spec's `LowConfidence`) is returned iff
`strict = true` and either (importance < 0.3 and the feature type, as
lower-cased by the code, is hamlet/village/locality) or the computed match
confidence is low; in every other case the record is accepted (`Verified`). -/
theorem C2_strict_rejection (place_name : String) (strict : Bool) (r : GeoResult) :
    (verify_place_exists place_name strict (some r) =
        ⟨false, get_place_details place_name (some r), "I don't know this place exists."⟩
      ↔ strict = true ∧
          ((r.importance < mkRat 3 10 ∧ lowerStr r.ftype ∈ smallTypes) ∨
            matchConfidence place_name r.name = Confidence.low)) ∧
    (¬(strict = true ∧
          ((r.importance < mkRat 3 10 ∧ lowerStr r.ftype ∈ smallTypes) ∨
            matchConfidence place_name r.name = Confidence.low)) →
      verify_place_exists place_name strict (some r) =
        ⟨true, get_place_details place_name (some r), "Found " ++ r.display_name⟩) := by
  rw [verify_some_eq]
  by_cases h1 : strict = true ∧ r.importance < mkRat 3 10 ∧ lowerStr r.ftype ∈ smallTypes
  · rw [if_pos h1]
    refine ⟨iff_of_true rfl ⟨h1.1, Or.inl h1.2⟩, fun hn => absurd ⟨h1.1, Or.inl h1.2⟩ hn⟩
  · rw [if_neg h1]
    by_cases h2 : strict = true ∧ matchConfidence place_name r.name = Confidence.low
    · rw [if_pos h2]
      refine ⟨iff_of_true rfl ⟨h2.1, Or.inr h2.2⟩, fun hn => absurd ⟨h2.1, Or.inr h2.2⟩ hn⟩
    · rw [if_neg h2]
      constructor
      · constructor
        · intro heq
          have hok := congrArg VerifyResult.ok heq
          simp at hok
        · rintro ⟨hs, hor⟩
          rcases hor with ha | hb
          · exact absurd ⟨hs, ha⟩ h1
          · exact absurd ⟨hs, hb⟩ h2
      · intro _; rfl

/-- C2 witness: scenario B (Smallville, importance 0.1, type hamlet) is
rejected by strict verification; scenario A (Bangalore, importance 0.9, type
city) is accepted. -/
theorem C2_strict_rejection_witness :
    verify_place_exists "Smallville" true (some smallvilleGeo) =
      ⟨false, get_place_details "Smallville" (some smallvilleGeo),
        "I don't know this place exists."⟩ ∧
    verify_place_exists "Bangalore" true (some bangaloreGeo) =
      ⟨true, get_place_details "Bangalore" (some bangaloreGeo), "Found " ++ "Bangalore"⟩ :=
  ⟨(C2_strict_rejection "Smallville" true smallvilleGeo).1.mpr
      ⟨rfl, Or.inl (by constructor <;> decide)⟩,
    (C2_strict_rejection "Bangalore" true bangaloreGeo).2 (by decide)⟩

/-- C3: the computed match confidence is high iff the lower-cased resolved
name equals or contains the lower-cased, trimmed query; otherwise medium iff
it contains some whitespace-delimited token of the query; otherwise low. -/
theorem C3_confidence_tiers (place_name found : String) :
    (matchConfidence place_name found = Confidence.high ↔
      (lowerStr found = stripStr (lowerStr place_name) ∨
        strIn (stripStr (lowerStr place_name)) (lowerStr found) = true)) ∧
    (matchConfidence place_name found = Confidence.medium ↔
      (¬(lowerStr found = stripStr (lowerStr place_name) ∨
          strIn (stripStr (lowerStr place_name)) (lowerStr found) = true) ∧
        ∃ w ∈ pySplit (stripStr (lowerStr place_name)), strIn w (lowerStr found) = true)) ∧
    (matchConfidence place_name found = Confidence.low ↔
      (¬(lowerStr found = stripStr (lowerStr place_name) ∨
          strIn (stripStr (lowerStr place_name)) (lowerStr found) = true) ∧
        ¬∃ w ∈ pySplit (stripStr (lowerStr place_name)), strIn w (lowerStr found) = true)) := by
  simp only [matchConfidence]
  split_ifs with h1 h2
  · simp only [Bool.or_eq_true, decide_eq_true_eq] at h1
    simp_all
  · simp only [Bool.or_eq_true, decide_eq_true_eq] at h1
    simp only [List.any_eq_true] at h2
    simp_all
  · simp only [Bool.or_eq_true, decide_eq_true_eq] at h1
    simp only [List.any_eq_true] at h2
    simp_all

/-- C3 witness: scenario A — the query "Bangalore" resolved to the name
"Bangalore" gets high confidence. -/
theorem C3_confidence_tiers_witness :
    matchConfidence "Bangalore" "Bangalore" = Confidence.high :=
  (C3_confidence_tiers "Bangalore" "Bangalore").1.mpr (Or.inl (by decide))

/-- C9: intent classification always yields a non-empty facet set; Weather is
requested iff some weather keyword occurs in the lower-cased text, Places is
requested whenever some places keyword occurs, and if neither keyword set
matches the result is exactly Places-only. -/
theorem C9_intent_classification (user_input : String) :
    ((determine_intent user_input).weather = true ↔
      ∃ k ∈ weather_keywords, strIn k (lowerStr user_input) = true) ∧
    ((∃ k ∈ places_keywords, strIn k (lowerStr user_input) = true) →
      (determine_intent user_input).places = true) ∧
    ((¬∃ k ∈ weather_keywords, strIn k (lowerStr user_input) = true) ∧
        (¬∃ k ∈ places_keywords, strIn k (lowerStr user_input) = true) →
      determine_intent user_input = ⟨false, true⟩) ∧
    ((determine_intent user_input).weather = true ∨
      (determine_intent user_input).places = true) := by
  have hwe : (determine_intent user_input).weather =
      weather_keywords.any (fun k => strIn k (lowerStr user_input)) := by
    simp only [determine_intent]; split_ifs <;> rfl
  refine ⟨?_, ?_, ?_, ?_⟩
  · rw [hwe]; exact List.any_eq_true
  · rintro ⟨k, hk, hs⟩
    have np : places_keywords.any (fun k => strIn k (lowerStr user_input)) = true :=
      List.any_eq_true.mpr ⟨k, hk, hs⟩
    simp only [determine_intent]
    split_ifs with h
    · rfl
    · simpa using np
  · rintro ⟨hnw, hnp⟩
    have hw : weather_keywords.any (fun k => strIn k (lowerStr user_input)) = false :=
      Bool.eq_false_iff.mpr fun h => hnw (List.any_eq_true.mp h)
    have hp : places_keywords.any (fun k => strIn k (lowerStr user_input)) = false :=
      Bool.eq_false_iff.mpr fun h => hnp (List.any_eq_true.mp h)
    simp [determine_intent, hw, hp]
  · by_cases hp : places_keywords.any (fun k => strIn k (lowerStr user_input)) = true
    · right
      simp only [determine_intent]
      split_ifs with h
      · rfl
      · simpa using hp
    · by_cases hw : weather_keywords.any (fun k => strIn k (lowerStr user_input)) = true
      · left; rw [hwe]; exact hw
      · right
        have hw' := Bool.eq_false_iff.mpr hw
        have hp' := Bool.eq_false_iff.mpr hp
        simp [determine_intent, hw', hp']

/-- C9 witness: "plan my trip" contains a places keyword, so Places is
requested. -/
theorem C9_intent_classification_witness :
    (determine_intent "plan my trip").places = true :=
  (C9_intent_classification "plan my trip").2.1 ⟨"plan my trip", by decide, by decide⟩

/-- Invariant of the accumulation loop of `get_tourist_attractions`: if the
accumulated names are distinct, all recorded in `seen`, and non-empty, the
final list also has distinct non-empty names. -/
theorem attractionsLoop_sound (limit : Nat) (els : List OsmElement) :
    ∀ (places : List Attraction) (seen : List String),
      (places.map Attraction.name).Nodup →
      (∀ n ∈ places.map Attraction.name, n ∈ seen) →
      (∀ a ∈ places, a.name ≠ "") →
      ((attractionsLoop limit els places seen).map Attraction.name).Nodup ∧
        (∀ a ∈ attractionsLoop limit els places seen, a.name ≠ "") := by
  induction els with
  | nil =>
    intro places seen h1 _ h3
    exact ⟨h1, h3⟩
  | cons e rest ih =>
    intro places seen h1 h2 h3
    simp only [attractionsLoop]
    by_cases ht : e.tags.isEmpty
    · rw [if_pos ht]; exact ih places seen h1 h2 h3
    · rw [if_neg ht]
      by_cases htou : (tagGet e.tags "tourism").isNone
      · rw [if_pos htou]; exact ih places seen h1 h2 h3
      · rw [if_neg htou]
        cases hn : elemName e with
        | none => exact ih places seen h1 h2 h3
        | some nm =>
          dsimp only
          by_cases hne : nm = ""
          · rw [if_pos hne]; exact ih places seen h1 h2 h3
          · rw [if_neg hne]
            by_cases hseen : nm ∈ seen
            · rw [if_pos hseen]; exact ih places seen h1 h2 h3
            · rw [if_neg hseen]
              have hnotin : nm ∉ places.map Attraction.name := fun hmem =>
                hseen (h2 nm hmem)
              set a0 : Attraction := ⟨nm, (tagGet e.tags "tourism").getD "attraction"⟩
                with ha0
              have hname : a0.name = nm := rfl
              have h1' : ((places ++ [a0]).map Attraction.name).Nodup := by
                rw [List.map_append]
                refine h1.append ?_ ?_
                · simp
                · simp [List.disjoint_singleton, hname, hnotin]
              have h3' : ∀ a ∈ places ++ [a0], a.name ≠ "" := by
                intro a ha
                rcases List.mem_append.mp ha with ha | ha
                · exact h3 a ha
                · simp at ha; subst ha; simpa [hname] using hne
              by_cases hl : limit ≤ (places ++ [a0]).length
              · rw [if_pos hl]; exact ⟨h1', h3'⟩
              · rw [if_neg hl]
                refine ih _ (nm :: seen) h1' ?_ h3'
                intro n hmem
                rw [List.map_append] at hmem
                rcases List.mem_append.mp hmem with hm | hm
                · exact List.mem_cons_of_mem _ (h2 n hm)
                · simp [hname] at hm; rw [hm]; exact List.mem_cons_self _ _

/-- C8: for every decoded provider response and every requested limit, the
attraction list contains no two entries with the same name, has length at
most the limit, and contains no unnamed entry. -/
theorem C8_attraction_list_invariants (elements : List OsmElement) (limit : Nat) :
    ((get_tourist_attractions elements limit).map Attraction.name).Nodup ∧
      (get_tourist_attractions elements limit).length ≤ limit ∧
      ∀ a ∈ get_tourist_attractions elements limit, a.name ≠ "" := by
  obtain ⟨hnd, hne⟩ :=
    attractionsLoop_sound limit elements [] [] (by simp) (by simp) (by simp)
  refine ⟨?_, ?_, ?_⟩
  · rw [get_tourist_attractions, List.map_take]
    exact List.Nodup.sublist (List.take_sublist _ _) hnd
  · exact List.length_take_le _ _
  · intro a ha
    exact hne a (List.mem_of_mem_take ha)

/-- Elements exercising C8: a duplicate name, an unnamed element, and a
non-tourism element. -/
def demoElements : List OsmElement :=
  [⟨[("tourism", "museum"), ("name", "Lalbagh")]⟩,
   ⟨[("tourism", "park")]⟩,
   ⟨[("tourism", "museum"), ("name", "Lalbagh")]⟩,
   ⟨[("name", "NoTourism")]⟩,
   ⟨[("tourism", "attraction"), ("name", "Cubbon Park")]⟩]

/-- C8 witness: the invariants instantiated on `demoElements`. -/
theorem C8_attraction_list_invariants_witness :
    ((get_tourist_attractions demoElements 5).map Attraction.name).Nodup ∧
      (get_tourist_attractions demoElements 5).length ≤ 5 ∧
      ∀ a ∈ get_tourist_attractions demoElements 5, a.name ≠ "" :=
  C8_attraction_list_invariants demoElements 5

example : get_tourist_attractions demoElements 5 =
    [⟨"Lalbagh", "museum"⟩, ⟨"Cubbon Park", "attraction"⟩] := by decide

/-- `true` iff before the first `verified` event of the trace no weather or
places provider call occurs (so every facet call has a `verified` event
strictly before it). -/
def facetGuarded : List Event → Bool
  | [] => true
  | Event.verified :: _ => true
  | e :: rest => !(e == Event.weatherCall || e == Event.placesCall) && facetGuarded rest

/-- A guarded trace has a `verified` event before every facet call. -/
theorem facetGuarded_spec (pre : List Event) :
    ∀ (e : Event) (post : List Event), facetGuarded (pre ++ e :: post) = true →
      (e = Event.weatherCall ∨ e = Event.placesCall) → Event.verified ∈ pre := by
  induction pre with
  | nil =>
    intro e post hg he
    rcases he with he | he <;> subst he <;> simp [facetGuarded] at hg
  | cons p pre ih =>
    intro e post hg he
    cases p with
    | verified => exact List.mem_cons_self _ _
    | geocode => exact List.mem_cons_of_mem _ (ih e post hg he)
    | rejected => exact List.mem_cons_of_mem _ (ih e post hg he)
    | weatherCall => simp [facetGuarded] at hg
    | placesCall => simp [facetGuarded] at hg

/-- The trace of the free-text entry point is guarded. -/
theorem process_query_guarded (env : Env) (user_input : String) :
    facetGuarded (process_query env user_input).2 = true := by
  unfold process_query
  cases env.extract user_input with
  | none => rfl
  | some place_name =>
    dsimp only
    split_ifs <;> rfl

/-- The trace of one structured (offline) session is guarded. -/
theorem offlineSession_guarded (env : Env) (place_name : String)
    (get_weather get_places : Bool) :
    facetGuarded (offlineSession env place_name get_weather get_places).2 = true := by
  unfold offlineSession
  dsimp only
  split_ifs <;> rfl

/-- On a rejected verification the free-text entry point's trace is exactly
the geocode call and the rejection. -/
theorem process_query_rejected_trace (env : Env) (user_input place_name : String)
    (hx : env.extract user_input = some place_name)
    (hv : (verify_place_exists place_name true (env.geocode place_name)).ok = false) :
    (process_query env user_input).2 = [Event.geocode, Event.rejected] := by
  unfold process_query
  rw [hx]
  dsimp only
  rw [if_neg (by simp [hv])]

/-- On a rejected verification the offline session's trace is exactly the
geocode call and the rejection. -/
theorem offlineSession_rejected_trace (env : Env) (place_name : String)
    (get_weather get_places : Bool)
    (hv : (verify_place_exists place_name true (env.geocode place_name)).ok = false) :
    (offlineSession env place_name get_weather get_places).2 =
      [Event.geocode, Event.rejected] := by
  unfold offlineSession
  dsimp only
  rw [if_neg (by simp [hv])]

/-- C6: in both entry points, every weather/places provider call in the trace
is strictly preceded by a `verified` outcome of the strict place
verification, and if that verification does not succeed no facet provider is
invoked at all. -/
theorem C6_verified_before_facet_calls :
    (∀ (env : Env) (user_input : String) (pre post : List Event) (e : Event),
        (process_query env user_input).2 = pre ++ e :: post →
        (e = Event.weatherCall ∨ e = Event.placesCall) →
        Event.verified ∈ pre) ∧
    (∀ (env : Env) (user_input place_name : String),
        env.extract user_input = some place_name →
        (verify_place_exists place_name true (env.geocode place_name)).ok = false →
        ∀ e ∈ (process_query env user_input).2,
          ¬(e = Event.weatherCall ∨ e = Event.placesCall)) ∧
    (∀ (env : Env) (place_name : String) (gw gp : Bool) (pre post : List Event)
        (e : Event),
        (offlineSession env place_name gw gp).2 = pre ++ e :: post →
        (e = Event.weatherCall ∨ e = Event.placesCall) →
        Event.verified ∈ pre) ∧
    (∀ (env : Env) (place_name : String) (gw gp : Bool),
        (verify_place_exists place_name true (env.geocode place_name)).ok = false →
        ∀ e ∈ (offlineSession env place_name gw gp).2,
          ¬(e = Event.weatherCall ∨ e = Event.placesCall)) := by
  refine ⟨?_, ?_, ?_, ?_⟩
  · intro env user_input pre post e htr he
    have hg := process_query_guarded env user_input
    rw [htr] at hg
    exact facetGuarded_spec pre e post hg he
  · intro env user_input place_name hx hv e hmem
    rw [process_query_rejected_trace env user_input place_name hx hv] at hmem
    simp only [List.mem_cons, List.not_mem_nil, or_false] at hmem
    rcases hmem with rfl | rfl <;> simp
  · intro env place_name gw gp pre post e htr he
    have hg := offlineSession_guarded env place_name gw gp
    rw [htr] at hg
    exact facetGuarded_spec pre e post hg he
  · intro env place_name gw gp hv e hmem
    rw [offlineSession_rejected_trace env place_name gw gp hv] at hmem
    simp only [List.mem_cons, List.not_mem_nil, or_false] at hmem
    rcases hmem with rfl | rfl <;> simp

/-- C6 witness: in the all-succeeding Bangalore environment, a weather query
produces the trace geocode, verified, geocode, weather call, and the theorem
places the `verified` event before the weather call. -/
theorem C6_verified_before_facet_calls_witness :
    Event.verified ∈ [Event.geocode, Event.verified, Event.geocode] :=
  C6_verified_before_facet_calls.1 bangaloreEnv "weather in Bangalore"
    [Event.geocode, Event.verified, Event.geocode] [] Event.weatherCall
    (by decide) (Or.inl rfl)

/-- C1: when both facets are requested and both providers return data, the
response is the weather sentence verbatim, a single space, and the places
rendering with its lead-in line replaced by the connective prefix, keeping
only the part after the first line — in the free-text combiner and in the
offline orchestrator alike. -/
theorem C1_merge_rule :
    (∀ (place_name w p : String), strIn "\n" p = true →
        combineResponses place_name (some w) (some p) =
          w ++ " " ++
            ("And these are the places you can go: - - - - -\n" ++ afterFirstLine p)) ∧
    (∀ (env : Env) (place_name w p : String),
        (get_weather_info env place_name).1 = some w →
        (get_places_info env place_name 5).1 = some p →
        strIn "\n" p = true →
        (process_query_offline env place_name true true).1 =
          w ++ " " ++
            ("And these are the places you can go: - - - - -\n" ++ afterFirstLine p)) := by
  constructor
  · intro place_name w p hnl
    simp only [combineResponses]
    rw [if_pos hnl]
    rfl
  · intro env place_name w p hw hp hnl
    rcases hwp : get_weather_info env place_name with ⟨wo, wev⟩
    rcases hpp : get_places_info env place_name 5 with ⟨po, pev⟩
    rw [hwp] at hw
    rw [hpp] at hp
    dsimp only at hw hp
    subst hw
    subst hp
    simp only [process_query_offline, hwp, hpp]
    rw [if_pos hnl]
    rfl

/-- C1 witness: the exact scenario-C response for Bangalore with 24°C, 10%
precipitation, and attractions Lalbagh and Cubbon Park. -/
theorem C1_merge_rule_witness :
    (process_query_offline bangaloreEnv "Bangalore" true true).1 =
      "In Bangalore it's currently 24°C with a chance of 10% to rain. And these are the places you can go: - - - - -\nLalbagh\nCubbon Park" := by
  rw [C1_merge_rule.2 bangaloreEnv "Bangalore"
    "In Bangalore it's currently 24°C with a chance of 10% to rain."
    "In Bangalore these are the places you can go, - - - - -\nLalbagh\nCubbon Park"
    rfl rfl (by decide)]
  decide

/-- C4 counterexample: with the Places facet requested and its provider
failing, the offline orchestrator renders "Could not retrieve tourist
attractions for Bangalore.", not the claimed template "Could not retrieve
places information for Bangalore.". -/
theorem C4_counterexample :
    (process_query_offline failEnv "Bangalore" false true).1 =
        "Could not retrieve tourist attractions for Bangalore." ∧
      (process_query_offline failEnv "Bangalore" false true).1 ≠
        "Could not retrieve places information for Bangalore." := by
  constructor <;> decide

/-- C4 (amended): a failed facet is replaced in its position by a per-facet
failure sentence — "Could not retrieve weather information for <place>." for
Weather and "Could not retrieve tourist attractions for <place>." for Places —
still joined into the final response, and the failure never aborts the other
facet. -/
theorem C4_per_facet_failure_sentences :
    (∀ (env : Env) (place_name p : String),
        (get_weather_info env place_name).1 = none →
        (get_places_info env place_name 5).1 = some p →
        strIn "\n" p = true →
        (process_query_offline env place_name true true).1 =
          "Could not retrieve weather information for " ++ place_name ++ "." ++ " " ++
            ("And these are the places you can go: - - - - -\n" ++ afterFirstLine p)) ∧
    (∀ (env : Env) (place_name w : String),
        (get_weather_info env place_name).1 = some w →
        (get_places_info env place_name 5).1 = none →
        (process_query_offline env place_name true true).1 =
          w ++ " " ++ ("Could not retrieve tourist attractions for " ++ place_name ++ ".")) ∧
    (∀ (env : Env) (place_name : String),
        (get_weather_info env place_name).1 = none →
        (process_query_offline env place_name true false).1 =
          "Could not retrieve weather information for " ++ place_name ++ ".") ∧
    (∀ (env : Env) (place_name : String),
        (get_places_info env place_name 5).1 = none →
        (process_query_offline env place_name false true).1 =
          "Could not retrieve tourist attractions for " ++ place_name ++ ".") := by
  refine ⟨?_, ?_, ?_, ?_⟩
  · intro env place_name p hw hp hnl
    rcases hwp : get_weather_info env place_name with ⟨wo, wev⟩
    rcases hpp : get_places_info env place_name 5 with ⟨po, pev⟩
    rw [hwp] at hw
    rw [hpp] at hp
    dsimp only at hw hp
    subst hw
    subst hp
    simp only [process_query_offline, hwp, hpp]
    rw [if_pos hnl]
    rfl
  · intro env place_name w hw hp
    rcases hwp : get_weather_info env place_name with ⟨wo, wev⟩
    rcases hpp : get_places_info env place_name 5 with ⟨po, pev⟩
    rw [hwp] at hw
    rw [hpp] at hp
    dsimp only at hw hp
    subst hw
    subst hp
    simp only [process_query_offline, hwp, hpp]
    rfl
  · intro env place_name hw
    rcases hwp : get_weather_info env place_name with ⟨wo, wev⟩
    rw [hwp] at hw
    dsimp only at hw
    subst hw
    simp only [process_query_offline, hwp]
    rfl
  · intro env place_name hp
    rcases hpp : get_places_info env place_name 5 with ⟨po, pev⟩
    rw [hpp] at hp
    dsimp only at hp
    subst hp
    simp only [process_query_offline, hpp]
    rfl

/-- C4 witness: scenario E — Weather-only request with a failing weather
provider yields exactly "Could not retrieve weather information for
Bangalore.". -/
theorem C4_per_facet_failure_sentences_witness :
    (process_query_offline failEnv "Bangalore" true false).1 =
      "Could not retrieve weather information for Bangalore." := by
  rw [C4_per_facet_failure_sentences.2.2.1 failEnv "Bangalore" rfl]
  decide

/-- C5 counterexample: with both facets requested and both providers failing,
the offline orchestrator returns the concatenation of the two per-facet
failure sentences, not its single generic failure sentence. -/
theorem C5_counterexample :
    (process_query_offline failEnv "Bangalore" true true).1 =
        "Could not retrieve weather information for Bangalore. Could not retrieve tourist attractions for Bangalore." ∧
      (process_query_offline failEnv "Bangalore" true true).1 ≠
        "Could not retrieve information for Bangalore. Please try again." := by
  constructor <;> decide

/-- C5 (amended): when every requested facet failed, the free-text
orchestrator returns the single generic failure sentence naming the place;
the offline orchestrator instead joins the per-facet failure sentences and
returns its own generic sentence only when no facet was requested at all. -/
theorem C5_total_failure :
    (∀ (env : Env) (user_input place_name : String),
        env.extract user_input = some place_name →
        (verify_place_exists place_name true (env.geocode place_name)).ok = true →
        ((determine_intent user_input).weather = true →
          (get_weather_info env place_name).1 = none) →
        ((determine_intent user_input).places = true →
          (get_places_info env place_name 5).1 = none) →
        (process_query env user_input).1 =
          "I found " ++ place_name ++ ", but couldn't retrieve information. Please try again.") ∧
    (∀ (env : Env) (place_name : String),
        (get_weather_info env place_name).1 = none →
        (get_places_info env place_name 5).1 = none →
        (process_query_offline env place_name true true).1 =
          ("Could not retrieve weather information for " ++ place_name ++ ".") ++ " " ++
            ("Could not retrieve tourist attractions for " ++ place_name ++ ".")) ∧
    (∀ (env : Env) (place_name : String),
        (process_query_offline env place_name false false).1 =
          "Could not retrieve information for " ++ place_name ++ ". Please try again.") := by
  refine ⟨?_, ?_, ?_⟩
  · intro env user_input place_name hx hv hw hp
    unfold process_query
    rw [hx]
    dsimp only
    rw [if_pos hv]
    by_cases hiw : (determine_intent user_input).weather = true <;>
      by_cases hip : (determine_intent user_input).places = true
    · rcases hwp : get_weather_info env place_name with ⟨wo, wev⟩
      rcases hpp : get_places_info env place_name 5 with ⟨po, pev⟩
      have hw' := hw hiw
      have hp' := hp hip
      rw [hwp] at hw'
      rw [hpp] at hp'
      dsimp only at hw' hp'
      subst hw'
      subst hp'
      simp [combineResponses, hiw, hip, hwp, hpp]
    · rcases hwp : get_weather_info env place_name with ⟨wo, wev⟩
      have hw' := hw hiw
      rw [hwp] at hw'
      dsimp only at hw'
      subst hw'
      simp [combineResponses, hiw, hip, hwp]
    · rcases hpp : get_places_info env place_name 5 with ⟨po, pev⟩
      have hp' := hp hip
      rw [hpp] at hp'
      dsimp only at hp'
      subst hp'
      simp [combineResponses, hiw, hip, hpp]
    · simp [combineResponses, hiw, hip]
  · intro env place_name hw hp
    rcases hwp : get_weather_info env place_name with ⟨wo, wev⟩
    rcases hpp : get_places_info env place_name 5 with ⟨po, pev⟩
    rw [hwp] at hw
    rw [hpp] at hp
    dsimp only at hw hp
    subst hw
    subst hp
    simp only [process_query_offline, hwp, hpp]
    rfl
  · intro env place_name
    rfl

/-- C5 witness: total failure in the free-text path (weather intent, weather
provider failing) yields the single generic sentence. -/
theorem C5_total_failure_witness :
    (process_query failEnv "weather in Bangalore").1 =
      "I found Bangalore, but couldn't retrieve information. Please try again." := by
  rw [C5_total_failure.1 failEnv "weather in Bangalore" "Bangalore" rfl (by decide)
    (fun _ => rfl) (fun h => absurd h (by decide))]
  decide

/-- Replace the display name of every geocoder answer of `env` by `d`. -/
def withDisplay (env : Env) (d : String) : Env :=
  { env with
    geocode := fun q => (env.geocode q).map fun r => { r with display_name := d } }

/-- The acceptance decision of verification ignores the display name. -/
theorem verify_ok_display_invariant (place_name : String) (strict : Bool)
    (r : GeoResult) (d : String) :
    (verify_place_exists place_name strict (some { r with display_name := d })).ok =
      (verify_place_exists place_name strict (some r)).ok := by
  rw [verify_some_eq, verify_some_eq]
  split_ifs <;> simp_all

/-- C10: the rendered weather sentence and places listing name the place with
the caller-supplied query string verbatim, and the whole composed answer of
both entry points is unchanged when the geocoder's display name is replaced
by anything else (the display name reaches only diagnostic messages). -/
theorem C10_place_name_verbatim :
    (∀ (env : Env) (place_name s : String),
        (get_weather_info env place_name).1 = some s →
        ∃ rest, s = "In " ++ place_name ++ " it's currently " ++ rest) ∧
    (∀ (env : Env) (place_name : String) (limit : Nat) (s : String),
        (get_places_info env place_name limit).1 = some s →
        ∃ rest, s = "In " ++ place_name ++ " these are the places you can go, - - - - -" ++ rest) ∧
    (∀ (env : Env) (d user_input : String),
        (process_query (withDisplay env d) user_input).1 =
          (process_query env user_input).1) ∧
    (∀ (env : Env) (d place_name : String) (gw gp : Bool),
        (offlineSession (withDisplay env d) place_name gw gp).1 =
          (offlineSession env place_name gw gp).1) := by
  refine ⟨?_, ?_, ?_, ?_⟩
  · intro env place_name s hs
    unfold get_weather_info at hs
    cases hc : env.coordsOf place_name with
    | none => rw [hc] at hs; cases hs
    | some c =>
      rw [hc] at hs
      dsimp only at hs
      cases hw : env.weather c with
      | none => rw [hw] at hs; cases hs
      | some w =>
        rw [hw] at hs
        dsimp only at hs
        injection hs with h
        refine ⟨w.temperature ++ (w.unit ++ (" with a chance of " ++
          (toString w.precipitation_probability ++ "% to rain."))), ?_⟩
        rw [← h]
        simp only [weatherSentence, String.append_assoc]
  · intro env place_name limit s hs
    unfold get_places_info at hs
    cases hc : env.coordsOf place_name with
    | none => rw [hc] at hs; cases hs
    | some c =>
      rw [hc] at hs
      dsimp only at hs
      by_cases he : (env.attractions c limit).isEmpty = true
      · rw [if_pos he] at hs
        injection hs with h
        refine ⟨"\n(No tourist attractions found in the database)", ?_⟩
        rw [← h]
        simp only [placesHeader, String.append_assoc]
      · rw [if_neg he] at hs
        injection hs with h
        refine ⟨"\n" ++ String.intercalate "\n"
            ((env.attractions c limit).map Attraction.name), ?_⟩
        rw [← h]
        simp only [placesHeader, String.append_assoc]
  · intro env d user_input
    unfold process_query
    dsimp only [withDisplay]
    cases hx : env.extract user_input with
    | none => rfl
    | some place_name =>
      dsimp only
      cases hg : env.geocode place_name with
      | none => rfl
      | some r =>
        simp only [Option.map_some']
        simp only [verify_ok_display_invariant place_name true r d]
        split_ifs <;> rfl
  · intro env d place_name gw gp
    unfold offlineSession
    dsimp only [withDisplay]
    cases hg : env.geocode place_name with
    | none => rfl
    | some r =>
      simp only [Option.map_some']
      simp only [verify_ok_display_invariant place_name true r d]
      split_ifs <;> rfl

/-- C10 witness: the concrete weather sentence for Bangalore starts with the
query string; replacing the display name of the Bangalore environment leaves
the composed response unchanged. -/
theorem C10_place_name_verbatim_witness :
    (∃ rest, "In Bangalore it's currently 24°C with a chance of 10% to rain." =
        "In " ++ "Bangalore" ++ " it's currently " ++ rest) ∧
    (process_query (withDisplay bangaloreEnv "Somewhere else entirely") "weather in Bangalore").1 =
      (process_query bangaloreEnv "weather in Bangalore").1 :=
  ⟨C10_place_name_verbatim.1 bangaloreEnv "Bangalore"
      "In Bangalore it's currently 24°C with a chance of 10% to rain." rfl,
    C10_place_name_verbatim.2.2.1 bangaloreEnv "Somewhere else entirely"
      "weather in Bangalore"⟩
